import Mathlib

/-!
A shallow embedding of the license/authentication backend in
`src/backend/app.py` (FastAPI + Firestore), together with theorems settling
the specification claims about credential creation, login/HWID binding,
expiry handling, extension, and cascading deletion.

Modelling conventions:
* Wall-clock instants are minutes since the civil epoch 1970-01-01T00:00
  (the `%Y-%m-%dT%H:%M` format the code parses has minute resolution);
  `datetime.utcnow()` is passed in as an explicit `now : Int` parameter.
* Firestore document ids for end-user records are modelled as `Nat`s drawn
  from a `nextId` counter in the store; collections are Lean lists, and a
  `limit(1).stream()` query is `List.find?` / `List.eraseP` on them.
* An endpoint handler is a function `… → Store → Result × Store`; an
  uncaught Python exception (`HTTPException`, `ValueError`, `IndexError`)
  is an `Except.error` result with the store unchanged, since the code
  raises before performing any write in those paths.
* The Discord webhook dispatch is fire-and-forget and never affects the
  login result or the store, so it is omitted.
-/

namespace KeyAuth

/-- Days from civil epoch 1970-01-01 for a Gregorian date (year ≥ 1),
standard era-based day count. -/
def daysFromCivil (y m d : Nat) : Int :=
  let yAdj : Nat := if m ≤ 2 then y - 1 else y
  let era : Nat := yAdj / 400
  let yoe : Nat := yAdj % 400
  let mp : Nat := (m + 9) % 12
  let doy : Nat := (153 * mp + 2) / 5 + (d - 1)
  let doe : Nat := yoe * 365 + yoe / 4 - yoe / 100 + doy
  ((era * 146097 + doe : Nat) : Int) - 719468

/-- Minutes since the civil epoch for a wall-clock datetime. -/
def toMinutes (y m d h mi : Nat) : Int :=
  daysFromCivil y m d * 1440 + h * 60 + mi

/-- `datetime(9999, 12, 31)`: the lifetime sentinel stored when `days == 0`. -/
def lifetimeSentinel : Int := toMinutes 9999 12 31 0 0

/-- `timedelta(days=1)` in store time units. -/
def minutesPerDay : Int := 1440

/-- Split a character list at every occurrence of `c` (always returns at
least one piece). -/
def splitOnChar (c : Char) : List Char → List (List Char)
  | [] => [[]]
  | x :: xs =>
    match splitOnChar c xs with
    | [] => [[]]
    | y :: ys => if x = c then [] :: y :: ys else (x :: y) :: ys

/-- Decimal value of a nonempty all-digit character list, else `none`. -/
def digitsVal (l : List Char) : Option Nat :=
  if l = [] then none
  else
    l.foldl
      (fun acc c =>
        match acc with
        | none => none
        | some n => if c.isDigit then some (n * 10 + (c.toNat - 48)) else none)
      (some 0)

/-- `datetime.strptime(s, "%Y-%m-%dT%H:%M")`: parse the fixed
datetime-local wall-clock format with basic field-range validation;
`none` models the `ValueError` raised on malformed input. -/
def strptimeYmdHM (s : String) : Option Int :=
  match splitOnChar 'T' s.data with
  | [ds, ts] =>
    match splitOnChar '-' ds, splitOnChar ':' ts with
    | [ys, ms, dds], [hs, mis] =>
      match digitsVal ys, digitsVal ms, digitsVal dds, digitsVal hs, digitsVal mis with
      | some y, some m, some d, some h, some mi =>
        if 1 ≤ m ∧ m ≤ 12 ∧ 1 ≤ d ∧ d ≤ 31 ∧ h ≤ 23 ∧ mi ≤ 59 then
          some (toMinutes y m d h mi)
        else none
      | _, _, _, _, _ => none
    | _, _ => none
  | _ => none

/-- `webhook_config` map stored on an application document. -/
structure WebhookConfig where
  url : String
  enabled : Bool
  show_hwid : Bool
  show_ip : Bool
  show_app : Bool
  show_expiry : Bool
deriving DecidableEq

/-- A document in the `sellers` collection. -/
structure SellerRec where
  email : String
  ownerid : String
deriving DecidableEq

/-- A document in the `applications` collection. -/
structure AppRec where
  appid : String
  app_secret : String
  name : String
  ownerid : String
  webhook_config : Option WebhookConfig
deriving DecidableEq

/-- A document in the `users` collection (an end-user credential). -/
structure UserRec where
  id : Nat
  appid : String
  username : String
  password : String
  expires_at : Int
  hwid : Option String
deriving DecidableEq

/-- The Firestore state: the three collections plus a fresh-id counter for
`users` document ids. -/
structure Store where
  sellers : List SellerRec
  apps : List AppRec
  users : List UserRec
  nextId : Nat
deriving DecidableEq

/-- Python exceptions escaping a handler, as HTTP-level failures:
`HTTPException(404, "App not found")`, `HTTPException(400, "Username
exists")`, an uncaught `ValueError` from `strptime`, an uncaught
`IndexError` from `[0]` on an empty query result, and the spec's `NotFound`
for the extension endpoint. -/
inductive HttpError where
  | appNotFound
  | usernameExists
  | valueError
  | notFound
  | indexError
deriving DecidableEq

/-- Request body of `/users/create`. -/
structure EndUserCreateRequest where
  ownerid : String
  appid : String
  username : String
  password : String
  days : Int
  expire_str : Option String
deriving DecidableEq

/-- Request body of `/api/1.0/user_login`. -/
structure ApiLoginRequest where
  ownerid : String
  app_secret : String
  username : String
  password : String
  hwid : String
deriving DecidableEq

/-- The JSON shape returned by `/api/1.0/user_login`: either
`{"success": false, "message": …}` or
`{"success": true, "message": …, "info": {"expires": …}}`. -/
inductive LoginResult where
  | failure (message : String)
  | success (message : String) (expires : Int)
deriving DecidableEq

/-- `POST /users/create` (`create_end_user` in `app.py`): duplicate check on
`(appid, username)`, then expiry from `expire_str` (if truthy), the
lifetime sentinel (if `days == 0`), or `now + days`; inserts with
`hwid = None`. -/
def create_end_user (now : Int) (data : EndUserCreateRequest) (st : Store) :
    Except HttpError Unit × Store :=
  match st.users.find? (fun u => u.appid == data.appid && u.username == data.username) with
  | some _ => (.error .usernameExists, st)
  | none =>
    let fromDays : Int :=
      if data.days = 0 then lifetimeSentinel else now + data.days * minutesPerDay
    let expiresE : Except HttpError Int :=
      match data.expire_str with
      | some s =>
        if s = "" then .ok fromDays
        else
          match strptimeYmdHM s with
          | some t => .ok t
          | none => .error .valueError
      | none => .ok fromDays
    match expiresE with
    | .error e => (.error e, st)
    | .ok expires =>
      (.ok (),
        { st with
          users := st.users ++
            [{ id := st.nextId, appid := data.appid, username := data.username,
               password := data.password, expires_at := expires, hwid := none }],
          nextId := st.nextId + 1 })

/-- `reference.update({'hwid': hw})` on the user document with id `uid`,
applied pointwise to the collection. -/
def setHwid (uid : Nat) (hw : String) (v : UserRec) : UserRec :=
  if v.id = uid then { v with hwid := some hw } else v

/-- `reference.update({'expires_at': e})` on the user document with id
`uid`, applied pointwise to the collection. -/
def setExpiry (uid : Nat) (e : Int) (v : UserRec) : UserRec :=
  if v.id = uid then { v with expires_at := e } else v

/-- `POST /api/1.0/user_login` (`user_login` in `app.py`): resolve the
application by `(ownerid, app_secret)`, the user by `(username, appid)`,
compare the plaintext password, then the HWID lock: bind on `None`,
reject on mismatch. There is no expiry check in the handler. -/
def user_login (data : ApiLoginRequest) (st : Store) : LoginResult × Store :=
  match st.apps.find? (fun a => a.ownerid == data.ownerid && a.app_secret == data.app_secret) with
  | none => (.failure "Invalid application details.", st)
  | some appData =>
    match st.users.find? (fun u => u.username == data.username && u.appid == appData.appid) with
    | none => (.failure "Invalid credentials.", st)
    | some u =>
      if u.password ≠ data.password then (.failure "Invalid credentials.", st)
      else
        match u.hwid with
        | none =>
          (.success "Login successful." u.expires_at,
            { st with users := st.users.map (setHwid u.id data.hwid) })
        | some h =>
          if h ≠ data.hwid then (.failure "HWID mismatch.", st)
          else (.success "Login successful." u.expires_at, st)

/-- The read phase of `user_login`: everything up to and including reading
the credential's `hwid` field, but before the `reference.update` write
lands. Carries what the handler decided from its reads. -/
inductive LoginDecision where
  | fail (message : String)
  | bind (uid : Nat) (expires : Int)
  | noBind (expires : Int)
deriving DecidableEq

/-- Read phase of `user_login` against a store snapshot: the queries and the
`hwid is None` check, with no write. -/
def loginRead (data : ApiLoginRequest) (st : Store) : LoginDecision :=
  match st.apps.find? (fun a => a.ownerid == data.ownerid && a.app_secret == data.app_secret) with
  | none => .fail "Invalid application details."
  | some appData =>
    match st.users.find? (fun u => u.username == data.username && u.appid == appData.appid) with
    | none => .fail "Invalid credentials."
    | some u =>
      if u.password ≠ data.password then .fail "Invalid credentials."
      else
        match u.hwid with
        | none => .bind u.id u.expires_at
        | some h =>
          if h ≠ data.hwid then .fail "HWID mismatch."
          else .noBind u.expires_at

/-- Write phase of `user_login`: the unconditional
`user_doc.reference.update({'hwid': data.hwid})` (when the read phase
decided to bind) applied to the store as it is when the write lands, plus
the response. The update is not guarded by a transaction in the code. -/
def loginCommit (data : ApiLoginRequest) (st : Store) (d : LoginDecision) :
    LoginResult × Store :=
  match d with
  | .fail m => (.failure m, st)
  | .bind uid expires =>
    (.success "Login successful." expires,
      { st with users := st.users.map (setHwid uid data.hwid) })
  | .noBind expires => (.success "Login successful." expires, st)

/-- `POST /users/delete` (`delete_user` in `app.py`): a bare Firestore
`document(user_id).delete()`, which is idempotent; the handler always
returns `{"status": "success"}` with no existence check. -/
def delete_user (user_id : Nat) (st : Store) : Except HttpError Unit × Store :=
  (.ok (), { st with users := st.users.filter fun u => !(u.id == user_id) })

/-- `POST /apps/delete` (`delete_app` in `app.py`): delete the first
application document matching `appid` (a `limit(1)` query), then delete
every user document with that `appid`; 404 when no application matched. -/
def delete_app (appid : String) (st : Store) : Except HttpError Unit × Store :=
  if st.apps.any (fun a => a.appid == appid) then
    (.ok (),
      { st with
        apps := st.apps.eraseP (fun a => a.appid == appid),
        users := st.users.filter fun u => !(u.appid == appid) })
  else (.error .appNotFound, st)

/-- `POST /seller/delete` (`delete_seller` in `app.py`): the code indexes
`.limit(1).get()[0]` with no emptiness check, so a missing seller raises an
uncaught `IndexError` before any write; otherwise the first matching seller
document is deleted, then every application with that `ownerid` and the
users of each such application. -/
def delete_seller (ownerid : String) (st : Store) : Except HttpError Unit × Store :=
  match st.sellers.find? (fun s => s.ownerid == ownerid) with
  | none => (.error .indexError, st)
  | some _ =>
    let st1 : Store := { st with sellers := st.sellers.eraseP (fun s => s.ownerid == ownerid) }
    (.ok (),
      { st1 with
        users := st1.users.filter fun u =>
          !(st1.apps.any fun a => a.ownerid == ownerid && a.appid == u.appid),
        apps := st1.apps.filter fun a => !(a.ownerid == ownerid) })

/-- Modelled from the spec: `src/backend/app.py` declares the request model
`UserExtendRequest { user_id, days }` but contains no extension handler;
the operation itself is missing from src. Spec §4.3: look up by id
(`NotFound` on a miss); if the current `expires_at` is the lifetime
sentinel, a no-op returning the current value; otherwise
`new_expiry = max(now_utc, current_expires_at) + days`, persisted and
returned. -/
def extendUser (now : Int) (user_id : Nat) (days : Int) (st : Store) :
    Except HttpError Int × Store :=
  match st.users.find? (fun v => v.id == user_id) with
  | none => (.error .notFound, st)
  | some u =>
    if u.expires_at = lifetimeSentinel then (.ok u.expires_at, st)
    else
      let newExp : Int := max now u.expires_at + days * minutesPerDay
      (.ok newExp, { st with users := st.users.map (setExpiry user_id newExp) })

/-- A store with all three collections empty. -/
def emptyStore : Store := { sellers := [], apps := [], users := [], nextId := 0 }

/-! ### Helper lemmas -/

/-- `find?` commutes with a map that does not change the predicate's verdict
(e.g. an update that touches only fields the query does not filter on). -/
theorem find?_map_pres {α : Type} (f : α → α) (p : α → Bool)
    (hp : ∀ v, p (f v) = p v) :
    ∀ l : List α, (l.map f).find? p = (l.find? p).map f := by
  intro l
  induction l with
  | nil => rfl
  | cons a t ih =>
    cases h : p a with
    | true =>
      rw [List.map_cons, List.find?_cons_of_pos _ (by simp [hp a, h]),
        List.find?_cons_of_pos _ h]
      rfl
    | false =>
      rw [List.map_cons, List.find?_cons_of_neg _ (by simp [hp a, h]),
        List.find?_cons_of_neg _ (by simp [h]), ih]

/-- Erasing the first match from a list with exactly one match leaves none. -/
theorem countP_eraseP_self {α : Type} (p : α → Bool) :
    ∀ l : List α, l.countP p = 1 → (l.eraseP p).countP p = 0 := by
  intro l
  induction l with
  | nil => simp
  | cons a t ih =>
    intro h1
    rw [List.countP_cons] at h1
    cases h : p a with
    | true =>
      rw [List.eraseP_cons_of_pos h]
      rw [h] at h1
      simpa using h1
    | false =>
      rw [List.eraseP_cons_of_neg (by simp [h]), List.countP_cons, h]
      rw [h] at h1
      simp only [if_neg Bool.false_ne_true, Nat.add_zero] at h1 ⊢
      exact ih h1

/-- A list with a positive match count has a first match. -/
theorem find?_isSome_of_countP_pos {α : Type} (p : α → Bool) (l : List α)
    (h : 0 < l.countP p) : ∃ a, l.find? p = some a := by
  cases hf : l.find? p with
  | some a => exact ⟨a, rfl⟩
  | none =>
    rw [List.find?_eq_none] at hf
    have : l.countP p = 0 := List.countP_eq_zero.mpr fun a ha => by
      simpa using hf a ha
    omega

theorem setHwid_id (uid : Nat) (hw : String) (v : UserRec) :
    (setHwid uid hw v).id = v.id := by
  unfold setHwid; split <;> rfl

theorem setHwid_username (uid : Nat) (hw : String) (v : UserRec) :
    (setHwid uid hw v).username = v.username := by
  unfold setHwid; split <;> rfl

theorem setHwid_appid (uid : Nat) (hw : String) (v : UserRec) :
    (setHwid uid hw v).appid = v.appid := by
  unfold setHwid; split <;> rfl

theorem setHwid_self (uid : Nat) (hw : String) (v : UserRec) (h : v.id = uid) :
    setHwid uid hw v = { v with hwid := some hw } := by
  unfold setHwid; rw [if_pos h]

theorem setExpiry_id (uid : Nat) (e : Int) (v : UserRec) :
    (setExpiry uid e v).id = v.id := by
  unfold setExpiry; split <;> rfl

theorem setExpiry_self (uid : Nat) (e : Int) (v : UserRec) (h : v.id = uid) :
    setExpiry uid e v = { v with expires_at := e } := by
  unfold setExpiry; rw [if_pos h]

/-- Splitting `user_login` into its read phase and its write phase is
faithful: run back-to-back against the same store they produce exactly the
handler's result. -/
theorem user_login_eq_read_commit (data : ApiLoginRequest) (st : Store) :
    user_login data st = loginCommit data st (loginRead data st) := by
  cases h1 : st.apps.find?
      (fun a => a.ownerid == data.ownerid && a.app_secret == data.app_secret) with
  | none => simp [user_login, loginRead, loginCommit, h1]
  | some appData =>
    cases h2 : st.users.find?
        (fun u => u.username == data.username && u.appid == appData.appid) with
    | none => simp [user_login, loginRead, loginCommit, h1, h2]
    | some u =>
      by_cases hp : u.password = data.password
      · cases hh : u.hwid with
        | none => simp [user_login, loginRead, loginCommit, h1, h2, hp, hh]
        | some h =>
          by_cases hw : h = data.hwid <;>
            simp [user_login, loginRead, loginCommit, h1, h2, hp, hh, hw]
      · simp [user_login, loginRead, loginCommit, h1, h2, hp]

/-! ### C1: no expiry check in `user_login` -/

/-- Application document shared by the login scenarios. -/
def appA1 : AppRec :=
  { appid := "A1", app_secret := "S1", name := "demo", ownerid := "O1",
    webhook_config := none }

/-- An expired, not-yet-bound credential: `expires_at` is the epoch
(1970-01-01T00:00), far before any present instant. -/
def userC1 : UserRec :=
  { id := 0, appid := "A1", username := "al", password := "pw",
    expires_at := 0, hwid := none }

def stC1 : Store := { sellers := [], apps := [appA1], users := [userC1], nextId := 1 }

def reqC1 : ApiLoginRequest :=
  { ownerid := "O1", app_secret := "S1", username := "al", password := "pw",
    hwid := "H1" }

/-- C1: the claim fails on the code — `user_login` contains no expiry check
at all (it never even reads a clock). A credential whose `expires_at` is
the 1970 epoch, strictly before 2024-01-01 and not the lifetime sentinel,
still logs in successfully and gets HWID-bound. -/
theorem C1_expired_login_succeeds :
    userC1.expires_at < toMinutes 2024 1 1 0 0 ∧
    userC1.expires_at ≠ lifetimeSentinel ∧
    (user_login reqC1 stC1).1 = .success "Login successful." 0 ∧
    (user_login reqC1 stC1).2.users = [{ userC1 with hwid := some "H1" }] :=
  ⟨by decide, by decide, rfl, rfl⟩

/-! ### C6: the first-use HWID binding race -/

/-- A never-bound credential for the race scenario. -/
def userC6 : UserRec :=
  { id := 0, appid := "A1", username := "bob", password := "pw",
    expires_at := 500, hwid := none }

def stC6 : Store := { sellers := [], apps := [appA1], users := [userC6], nextId := 1 }

def reqC6a : ApiLoginRequest :=
  { ownerid := "O1", app_secret := "S1", username := "bob", password := "pw",
    hwid := "H1" }

def reqC6b : ApiLoginRequest :=
  { ownerid := "O1", app_secret := "S1", username := "bob", password := "pw",
    hwid := "H2" }

/-- C6: the claim fails on the code — the HWID binding is an unguarded
check-then-act (a plain read followed by an unconditional
`reference.update`, no transaction or conditional write), so in the
interleaving where both requests read `hwid = None` before either write
lands, BOTH logins succeed and the second write silently overwrites the
first binding, leaving `hwid = "H2"`. -/
theorem C6_race_both_succeed :
    (loginCommit reqC6a stC6 (loginRead reqC6a stC6)).1 =
      .success "Login successful." 500 ∧
    (loginCommit reqC6b (loginCommit reqC6a stC6 (loginRead reqC6a stC6)).2
        (loginRead reqC6b stC6)).1 = .success "Login successful." 500 ∧
    (loginCommit reqC6b (loginCommit reqC6a stC6 (loginRead reqC6a stC6)).2
        (loginRead reqC6b stC6)).2.users = [{ userC6 with hwid := some "H2" }] :=
  ⟨rfl, rfl, rfl⟩

/-! ### C2: expiry extension (spec-modelled, no handler in src) -/

/-- C2: `extend` on a lifetime credential is a no-op returning the stored
value; otherwise the new expiry is `max(now, current) + days`, is
persisted on the record, and is returned. -/
theorem C2_extend_behavior (now : Int) (st : Store) (uid : Nat) (days : Int)
    (u : UserRec)
    (hfind : st.users.find? (fun v => v.id == uid) = some u) :
    (u.expires_at = lifetimeSentinel →
      extendUser now uid days st = (.ok u.expires_at, st)) ∧
    (u.expires_at ≠ lifetimeSentinel →
      (extendUser now uid days st).1 =
        .ok (max now u.expires_at + days * minutesPerDay) ∧
      (extendUser now uid days st).2.users.find? (fun v => v.id == uid) =
        some { u with
               expires_at := max now u.expires_at + days * minutesPerDay }) := by
  have huid : u.id = uid := by simpa using List.find?_some hfind
  constructor
  · intro hlife
    simp [extendUser, hfind, hlife]
  · intro hnl
    have hmain : extendUser now uid days st =
        (.ok (max now u.expires_at + days * minutesPerDay),
          { st with
            users := st.users.map
              (setExpiry uid (max now u.expires_at + days * minutesPerDay)) }) := by
      simp [extendUser, hfind, hnl]
    refine ⟨by rw [hmain], ?_⟩
    rw [hmain]
    have hp : ∀ v : UserRec,
        ((setExpiry uid (max now u.expires_at + days * minutesPerDay) v).id == uid) =
          (v.id == uid) := by
      intro v; rw [setExpiry_id]
    rw [show ((.ok (max now u.expires_at + days * minutesPerDay) :
          Except HttpError Int),
        ({ st with
           users := st.users.map
             (setExpiry uid (max now u.expires_at + days * minutesPerDay)) } :
          Store)).2.users = st.users.map
             (setExpiry uid (max now u.expires_at + days * minutesPerDay)) from rfl]
    rw [find?_map_pres _ _ hp, hfind]
    exact congrArg some (setExpiry_self _ _ _ huid)

/-- Credential for the extension scenario (finite expiry 100). -/
def userC2 : UserRec :=
  { id := 0, appid := "A1", username := "c2", password := "pw",
    expires_at := 100, hwid := none }

/-- Credential for the extension scenario (lifetime). -/
def userC2L : UserRec :=
  { id := 1, appid := "A1", username := "c2l", password := "pw",
    expires_at := lifetimeSentinel, hwid := none }

def stC2 : Store := { sellers := [], apps := [], users := [userC2, userC2L], nextId := 2 }

/-- C2 witness: extending the finite credential at `now = 50` by 7 days
stacks on the remaining time and persists; extending the lifetime
credential is a no-op. -/
theorem C2_extend_witness :
    (extendUser 50 0 7 stC2).1 = .ok (max 50 100 + 7 * minutesPerDay) ∧
    (extendUser 50 0 7 stC2).2.users.find? (fun v => v.id == 0) =
      some { userC2 with expires_at := max 50 100 + 7 * minutesPerDay } ∧
    extendUser 50 1 7 stC2 = (.ok lifetimeSentinel, stC2) := by
  refine ⟨?_, ?_, ?_⟩
  · exact ((C2_extend_behavior 50 stC2 0 7 userC2 rfl).2 (by decide)).1
  · exact ((C2_extend_behavior 50 stC2 0 7 userC2 rfl).2 (by decide)).2
  · exact (C2_extend_behavior 50 stC2 1 7 userC2L rfl).1 rfl

/-! ### C3: first-use HWID binding and subsequent checks -/

/-- C3: a valid-password login against a credential with `hwid = None`
succeeds and binds the supplied HWID onto the stored record; against the
resulting store, a login with a different HWID fails with `HWID mismatch.`
and a login with the same HWID succeeds. -/
theorem C3_hwid_bind_then_lock (st : Store) (d1 : ApiLoginRequest) (hw2 : String)
    (a : AppRec) (u : UserRec) (now : Int)
    (happ : st.apps.find?
      (fun x => x.ownerid == d1.ownerid && x.app_secret == d1.app_secret) = some a)
    (huser : st.users.find?
      (fun v => v.username == d1.username && v.appid == a.appid) = some u)
    (hpw : u.password = d1.password)
    (hh : u.hwid = none)
    (hunexp : u.expires_at = lifetimeSentinel ∨ now ≤ u.expires_at) :
    (user_login d1 st).1 = .success "Login successful." u.expires_at ∧
    (user_login d1 st).2.users.find?
        (fun v => v.username == d1.username && v.appid == a.appid) =
      some { u with hwid := some d1.hwid } ∧
    (hw2 ≠ d1.hwid →
      (user_login { d1 with hwid := hw2 } (user_login d1 st).2).1 =
        .failure "HWID mismatch.") ∧
    (user_login d1 (user_login d1 st).2).1 =
      .success "Login successful." u.expires_at := by
  have hmain : user_login d1 st =
      (.success "Login successful." u.expires_at,
        { st with users := st.users.map (setHwid u.id d1.hwid) }) := by
    simp [user_login, happ, huser, hpw, hh]
  have hp : ∀ v : UserRec,
      ((setHwid u.id d1.hwid v).username == d1.username &&
        (setHwid u.id d1.hwid v).appid == a.appid) =
      (v.username == d1.username && v.appid == a.appid) := by
    intro v; rw [setHwid_username, setHwid_appid]
  have hfind1 : (user_login d1 st).2.users.find?
      (fun v => v.username == d1.username && v.appid == a.appid) =
      some { u with hwid := some d1.hwid } := by
    rw [hmain]
    rw [show ((.success "Login successful." u.expires_at : LoginResult),
        ({ st with users := st.users.map (setHwid u.id d1.hwid) } : Store)).2.users
        = st.users.map (setHwid u.id d1.hwid) from rfl]
    rw [find?_map_pres _ _ hp, huser]
    exact congrArg some (setHwid_self _ _ _ rfl)
  have happ1 : (user_login d1 st).2.apps.find?
      (fun x => x.ownerid == d1.ownerid && x.app_secret == d1.app_secret) = some a := by
    rw [hmain]; exact happ
  refine ⟨by simp [hmain], hfind1, ?_, ?_⟩
  · intro hne
    generalize (user_login d1 st).2 = st1 at happ1 hfind1 ⊢
    simp [user_login, happ1, hfind1, hpw, Ne.symm hne]
  · generalize (user_login d1 st).2 = st1 at happ1 hfind1 ⊢
    simp [user_login, happ1, hfind1, hpw]

/-- Fresh unbound credential for the binding scenario. -/
def userC3 : UserRec :=
  { id := 0, appid := "A1", username := "cl", password := "pw",
    expires_at := 200, hwid := none }

def stC3 : Store := { sellers := [], apps := [appA1], users := [userC3], nextId := 1 }

def reqC3 : ApiLoginRequest :=
  { ownerid := "O1", app_secret := "S1", username := "cl", password := "pw",
    hwid := "H1" }

/-- C3 witness: the concrete first login binds `"H1"`; re-login with `"H2"`
is rejected with `HWID mismatch.` and re-login with `"H1"` succeeds. -/
theorem C3_hwid_bind_then_lock_witness :
    (user_login reqC3 stC3).1 = .success "Login successful." 200 ∧
    (user_login reqC3 stC3).2.users.find?
        (fun v => v.username == reqC3.username && v.appid == appA1.appid) =
      some { userC3 with hwid := some "H1" } ∧
    (user_login { reqC3 with hwid := "H2" } (user_login reqC3 stC3).2).1 =
      .failure "HWID mismatch." ∧
    (user_login reqC3 (user_login reqC3 stC3).2).1 =
      .success "Login successful." 200 := by
  have h := C3_hwid_bind_then_lock stC3 reqC3 "H2" appA1 userC3 0 rfl rfl rfl rfl
    (Or.inr (by decide))
  exact ⟨h.1, h.2.1, h.2.2.1 (by decide), h.2.2.2⟩

/-! ### C4: expiry precedence at credential creation -/

/-- C4: when no duplicate `(appid, username)` exists, the stored
`expires_at` follows the precedence: a truthy `expire_str` is parsed and
used verbatim; otherwise `days == 0` stores the lifetime sentinel;
otherwise `now + days` is stored. The new record always starts with
`hwid = none`. -/
theorem C4_create_expiry_precedence (now : Int) (data : EndUserCreateRequest)
    (st : Store)
    (hnodup : st.users.find?
      (fun u => u.appid == data.appid && u.username == data.username) = none) :
    (∀ s t, data.expire_str = some s → s ≠ "" → strptimeYmdHM s = some t →
      create_end_user now data st =
        (.ok (),
          { st with
            users := st.users ++
              [⟨st.nextId, data.appid, data.username, data.password, t, none⟩],
            nextId := st.nextId + 1 })) ∧
    ((data.expire_str = none ∨ data.expire_str = some "") → data.days = 0 →
      create_end_user now data st =
        (.ok (),
          { st with
            users := st.users ++
              [⟨st.nextId, data.appid, data.username, data.password,
                lifetimeSentinel, none⟩],
            nextId := st.nextId + 1 })) ∧
    ((data.expire_str = none ∨ data.expire_str = some "") → data.days ≠ 0 →
      create_end_user now data st =
        (.ok (),
          { st with
            users := st.users ++
              [⟨st.nextId, data.appid, data.username, data.password,
                now + data.days * minutesPerDay, none⟩],
            nextId := st.nextId + 1 })) := by
  refine ⟨?_, ?_, ?_⟩
  · intro s t hs hne hparse
    simp [create_end_user, hnodup, hs, hne, hparse]
  · intro hs h0
    rcases hs with hs | hs <;> simp [create_end_user, hnodup, hs, h0]
  · intro hs h0
    rcases hs with hs | hs <;> simp [create_end_user, hnodup, hs, h0]

def reqC4a : EndUserCreateRequest :=
  { ownerid := "O1", appid := "A1", username := "u4", password := "pw",
    days := 30, expire_str := some "2030-05-01T10:30" }

def reqC4b : EndUserCreateRequest :=
  { ownerid := "O1", appid := "A1", username := "u4", password := "pw",
    days := 0, expire_str := none }

def reqC4c : EndUserCreateRequest :=
  { ownerid := "O1", appid := "A1", username := "u4", password := "pw",
    days := 30, expire_str := none }

/-- C4 witness: the three precedence branches on an empty store — explicit
timestamp used verbatim, `days = 0` stores the sentinel, `days = 30`
stores `now + 30` days — each with `hwid = none` on the new record. -/
theorem C4_create_expiry_precedence_witness :
    create_end_user 1000 reqC4a emptyStore =
      (.ok (),
        { emptyStore with
          users := [⟨0, "A1", "u4", "pw", toMinutes 2030 5 1 10 30, none⟩],
          nextId := 1 }) ∧
    create_end_user 1000 reqC4b emptyStore =
      (.ok (),
        { emptyStore with
          users := [⟨0, "A1", "u4", "pw", lifetimeSentinel, none⟩],
          nextId := 1 }) ∧
    create_end_user 1000 reqC4c emptyStore =
      (.ok (),
        { emptyStore with
          users := [⟨0, "A1", "u4", "pw", 1000 + 30 * minutesPerDay, none⟩],
          nextId := 1 }) := by
  refine ⟨?_, ?_, ?_⟩
  · exact (C4_create_expiry_precedence 1000 reqC4a emptyStore rfl).1
      "2030-05-01T10:30" (toMinutes 2030 5 1 10 30) rfl (by decide) (by decide)
  · exact (C4_create_expiry_precedence 1000 reqC4b emptyStore rfl).2.1
      (Or.inl rfl) rfl
  · exact (C4_create_expiry_precedence 1000 reqC4c emptyStore rfl).2.2
      (Or.inl rfl) (by decide)

/-! ### C5: duplicate (appid, username) creation is rejected -/

/-- C5: when a credential with the same `(appid, username)` pair already
exists (and is unique, the store invariant), creation fails with the
duplicate-username error and the pair's record count stays 1 — no second
record appears. -/
theorem C5_duplicate_create_rejected (now : Int) (data : EndUserCreateRequest)
    (st : Store)
    (hdup : st.users.countP
      (fun u => u.appid == data.appid && u.username == data.username) = 1) :
    (create_end_user now data st).1 = .error .usernameExists ∧
    (create_end_user now data st).2.users.countP
      (fun u => u.appid == data.appid && u.username == data.username) = 1 := by
  obtain ⟨w, hw⟩ := find?_isSome_of_countP_pos
    (fun u => u.appid == data.appid && u.username == data.username) st.users
    (by omega)
  constructor
  · simp [create_end_user, hw]
  · simpa [create_end_user, hw] using hdup

def userC5 : UserRec :=
  { id := 0, appid := "A1", username := "u5", password := "old",
    expires_at := 300, hwid := none }

def stC5 : Store := { sellers := [], apps := [appA1], users := [userC5], nextId := 1 }

def reqC5 : EndUserCreateRequest :=
  { ownerid := "O1", appid := "A1", username := "u5", password := "new",
    days := 5, expire_str := none }

/-- C5 witness: creating `("A1", "u5")` again fails with the duplicate
error and the store still holds exactly one record for the pair. -/
theorem C5_duplicate_create_rejected_witness :
    (create_end_user 0 reqC5 stC5).1 = .error .usernameExists ∧
    (create_end_user 0 reqC5 stC5).2.users.countP
      (fun u => u.appid == reqC5.appid && u.username == reqC5.username) = 1 :=
  C5_duplicate_create_rejected 0 reqC5 stC5 (by decide)

/-! ### C7: application deletion cascades to its users -/

/-- C7: deleting an existing application (`appid` unique in the store, as
uuid-generated ids are) succeeds and afterwards no application record and
no end-user credential record with that `appid` remains. -/
theorem C7_delete_app_cascade (appid : String) (st : Store)
    (hone : st.apps.countP (fun a => a.appid == appid) = 1) :
    (delete_app appid st).1 = .ok () ∧
    (∀ a ∈ (delete_app appid st).2.apps, a.appid ≠ appid) ∧
    (∀ u ∈ (delete_app appid st).2.users, u.appid ≠ appid) := by
  have hany : st.apps.any (fun a => a.appid == appid) = true := by
    obtain ⟨w, hw⟩ := find?_isSome_of_countP_pos
      (fun a => a.appid == appid) st.apps (by omega)
    have hpw := @List.find?_some AppRec (fun a => a.appid == appid) w st.apps hw
    exact List.any_eq_true.mpr ⟨w, List.mem_of_find?_eq_some hw, hpw⟩
  refine ⟨by simp [delete_app, hany], ?_, ?_⟩
  · intro a ha
    simp only [delete_app, hany, if_true] at ha
    have h0 := countP_eraseP_self (fun a => a.appid == appid) st.apps hone
    have := List.countP_eq_zero.mp h0 a ha
    simpa using this
  · intro u hu
    simp only [delete_app, hany, if_true] at hu
    have := (List.mem_filter.mp hu).2
    simpa using this

def userC7a : UserRec :=
  { id := 0, appid := "A1", username := "ua", password := "pw",
    expires_at := 300, hwid := none }

def userC7b : UserRec :=
  { id := 1, appid := "B1", username := "ub", password := "pw",
    expires_at := 300, hwid := none }

def stC7 : Store :=
  { sellers := [], apps := [appA1], users := [userC7a, userC7b], nextId := 2 }

/-- C7 witness: deleting app `"A1"` succeeds, removes the application and
its credential, and leaves the unrelated `"B1"` credential intact. -/
theorem C7_delete_app_cascade_witness :
    (delete_app "A1" stC7).1 = .ok () ∧
    (delete_app "A1" stC7).2.apps = [] ∧
    (delete_app "A1" stC7).2.users = [userC7b] :=
  ⟨(C7_delete_app_cascade "A1" stC7 (by decide)).1, rfl, rfl⟩

/-! ### C8: unknown username and wrong password are indistinguishable -/

/-- C8: against the same application, a login whose username matches no
credential and a login whose credential exists but whose password is wrong
produce byte-identical results — the same generic
`Invalid credentials.` failure with the store untouched. -/
theorem C8_uniform_invalid_credentials (st : Store) (r1 r2 : ApiLoginRequest)
    (a : AppRec) (u : UserRec)
    (h1 : st.apps.find?
      (fun x => x.ownerid == r1.ownerid && x.app_secret == r1.app_secret) = some a)
    (h2 : st.apps.find?
      (fun x => x.ownerid == r2.ownerid && x.app_secret == r2.app_secret) = some a)
    (hu1 : st.users.find?
      (fun v => v.username == r1.username && v.appid == a.appid) = none)
    (hu2 : st.users.find?
      (fun v => v.username == r2.username && v.appid == a.appid) = some u)
    (hpw : u.password ≠ r2.password) :
    user_login r1 st = (.failure "Invalid credentials.", st) ∧
    user_login r2 st = (.failure "Invalid credentials.", st) ∧
    user_login r1 st = user_login r2 st := by
  have ha : user_login r1 st = (.failure "Invalid credentials.", st) := by
    simp [user_login, h1, hu1]
  have hb : user_login r2 st = (.failure "Invalid credentials.", st) := by
    simp [user_login, h2, hu2, hpw]
  exact ⟨ha, hb, ha.trans hb.symm⟩

def userC8 : UserRec :=
  { id := 0, appid := "A1", username := "u8", password := "right",
    expires_at := 300, hwid := none }

def stC8 : Store := { sellers := [], apps := [appA1], users := [userC8], nextId := 1 }

def reqC8a : ApiLoginRequest :=
  { ownerid := "O1", app_secret := "S1", username := "ghost", password := "x",
    hwid := "H1" }

def reqC8b : ApiLoginRequest :=
  { ownerid := "O1", app_secret := "S1", username := "u8", password := "wrong",
    hwid := "H1" }

/-- C8 witness: an unknown username and a wrong password yield the exact
same response against the concrete store. -/
theorem C8_uniform_invalid_credentials_witness :
    user_login reqC8a stC8 = (.failure "Invalid credentials.", stC8) ∧
    user_login reqC8b stC8 = (.failure "Invalid credentials.", stC8) ∧
    user_login reqC8a stC8 = user_login reqC8b stC8 :=
  C8_uniform_invalid_credentials stC8 reqC8a reqC8b appA1 userC8
    rfl rfl rfl rfl (by decide)

/-! ### C9: deleting a missing credential id -/

/-- C9: the claim fails on the code — `delete_user` is a bare idempotent
Firestore `document(id).delete()` with no existence check, so deleting an
id that matches no record reports success, never a `NotFound` error. -/
theorem C9_missing_delete_reports_success :
    (∀ u ∈ emptyStore.users, u.id ≠ 0) ∧
    delete_user 0 emptyStore = (.ok (), emptyStore) ∧
    (delete_user 0 emptyStore).1 ≠ .error HttpError.notFound := by
  refine ⟨?_, rfl, fun h => Except.noConfusion h⟩
  intro u hu
  simp [emptyStore] at hu

/-- C9 amended: `delete_user` always reports success — whether or not the
id matches a record — and afterwards the store holds exactly the previous
records whose id differs from the requested one. -/
theorem C9_delete_always_succeeds (user_id : Nat) (st : Store) :
    (delete_user user_id st).1 = .ok () ∧
    ∀ u : UserRec,
      u ∈ (delete_user user_id st).2.users ↔ u ∈ st.users ∧ u.id ≠ user_id := by
  refine ⟨rfl, fun u => ?_⟩
  simp [delete_user, List.mem_filter]

/-! ### C10: seller deletion with an unknown ownerid raises -/

/-- C10: `delete_seller` indexes `[0]` on the `limit(1)` query result with
no emptiness check: an `ownerid` matching no seller raises an uncaught
`IndexError` (no error result, no write); with a matching seller the
operation completes and returns success. -/
theorem C10_delete_seller_raises_on_missing (st : Store) (oid : String) :
    (st.sellers.find? (fun s => s.ownerid == oid) = none →
      delete_seller oid st = (.error .indexError, st)) ∧
    (∀ s, st.sellers.find? (fun s => s.ownerid == oid) = some s →
      (delete_seller oid st).1 = .ok ()) := by
  constructor
  · intro h; simp [delete_seller, h]
  · intro s h; simp [delete_seller, h]

def sellerC10 : SellerRec := { email := "e", ownerid := "O1" }

def stC10 : Store := { sellers := [sellerC10], apps := [], users := [], nextId := 0 }

/-- C10 witness: an unknown ownerid raises (modelled `IndexError`) with the
store untouched; an existing ownerid completes with success. -/
theorem C10_delete_seller_raises_on_missing_witness :
    delete_seller "ghost" emptyStore = (.error .indexError, emptyStore) ∧
    (delete_seller "O1" stC10).1 = .ok () :=
  ⟨(C10_delete_seller_raises_on_missing emptyStore "ghost").1 rfl,
   (C10_delete_seller_raises_on_missing stC10 "O1").2 sellerC10 rfl⟩

end KeyAuth
